import Mathlib

set_option maxRecDepth 100000
set_option maxHeartbeats 1000000

/-!
Verification of the resilient request-orchestration core of the
`data_scientist` repository: the analysis cache (`backend/app/core/cache.py`),
the result validator (`backend/app/core/result_validator.py`), the Groq HTTP
client (`backend/scripts/custom_groq_llm.py`), the crew orchestrator
(`backend/scripts/crew.py`) and the `/analysis/analyze` boundary handler
(`backend/app/routers/analysis.py`).

The Python code is shallowly embedded: times are integers passed explicitly
(`time.time()` becomes a `now : Int` parameter), the Python float scores are
modelled as exact rationals, dictionaries become insertion-ordered association
lists (matching CPython dict iteration order), and the network / LLM
environment is an explicit value describing the outcome of each attempt.
String handling (strip, lower, regex-based scanning) is modelled faithfully
for ASCII text, which covers all string constants of the code.
-/

namespace DataScientist

/-! ## Python string primitives -/

/-- The ASCII whitespace characters stripped by Python `str.strip()` and
matched by the regex class `\s`. -/
def isPyWs (c : Char) : Bool :=
  c = ' ' || c = '\t' || c = '\n' || c = '\x0b' || c = '\x0c' || c = '\r'

/-- Python `str.strip()` on ASCII text: drop whitespace at both ends. -/
def pyStrip (s : String) : String :=
  ⟨((s.data.dropWhile isPyWs).reverse.dropWhile isPyWs).reverse⟩

/-- Python `str.lower()` on ASCII text. -/
def pyLower (s : String) : String :=
  ⟨s.data.map Char.toLower⟩

/-- Characters of the regex class `\w` (ASCII): letters, digits, underscore. -/
def isWordChar (c : Char) : Bool :=
  c.isAlphanum || c = '_'

/-- `isPrefixList p l` decides whether `p` is a prefix of `l`. -/
def isPrefixList : List Char → List Char → Bool
  | [], _ => true
  | p :: ps, cs =>
      match cs with
      | [] => false
      | c :: rest => p = c && isPrefixList ps rest

/-- `subList pat l` decides whether `pat` occurs as a contiguous sublist of
`l`; this is Python's `pat in s` on strings. -/
def subList (pat : List Char) : List Char → Bool
  | [] => isPrefixList pat []
  | c :: t => isPrefixList pat (c :: t) || subList pat t

/-- Python `pat in s` (substring containment). -/
def strContains (s pat : String) : Bool :=
  subList pat.data s.data

/-- Python `c in s` for a single character. -/
def containsChar (s : String) (c : Char) : Bool :=
  s.data.any (fun d => d = c)

/-- Python `s.count(c)` for a single character `c`. -/
def countChar (s : String) (c : Char) : Nat :=
  s.data.countP (fun d => d = c)

/-- Python `s.count(ab)` for a two-character pattern `ab` with `a ≠ b`
(occurrences cannot overlap, so plain scanning counts them). -/
def countPair (a b : Char) : List Char → Nat
  | x :: y :: t =>
      if x = a ∧ y = b then 1 + countPair a b t else countPair a b (y :: t)
  | _ => 0

/-- Python `s.split(sep)[0]` for a one-character separator: the prefix of `s`
before the first occurrence of `sep` (all of `s` when `sep` is absent). -/
def firstField (s : String) (sep : Char) : String :=
  ⟨s.data.takeWhile (fun d => ¬ d = sep)⟩

/-! ## MD5 (RFC 1321), used by `hashlib.md5(...).hexdigest()` -/

/-- UTF-8 encoding of one character (Python `str.encode()`). -/
def utf8Char (c : Char) : List Nat :=
  let n := c.toNat
  if n < 128 then [n]
  else if n < 2048 then [192 + n / 64, 128 + n % 64]
  else if n < 65536 then [224 + n / 4096, 128 + n / 64 % 64, 128 + n % 64]
  else [240 + n / 262144, 128 + n / 4096 % 64, 128 + n / 64 % 64, 128 + n % 64]

/-- UTF-8 encoding of a string as a byte list. -/
def utf8Bytes (s : String) : List Nat :=
  s.data.flatMap utf8Char

/-- The MD5 per-round left-rotation amounts. -/
def md5S : List Nat :=
  [7, 12, 17, 22, 7, 12, 17, 22, 7, 12, 17, 22, 7, 12, 17, 22,
   5, 9, 14, 20, 5, 9, 14, 20, 5, 9, 14, 20, 5, 9, 14, 20,
   4, 11, 16, 23, 4, 11, 16, 23, 4, 11, 16, 23, 4, 11, 16, 23,
   6, 10, 15, 21, 6, 10, 15, 21, 6, 10, 15, 21, 6, 10, 15, 21]

/-- The MD5 sine-derived constants `K[i] = floor(abs(sin(i+1)) * 2^32)`. -/
def md5K : List Nat :=
  [0xd76aa478, 0xe8c7b756, 0x242070db, 0xc1bdceee,
   0xf57c0faf, 0x4787c62a, 0xa8304613, 0xfd469501,
   0x698098d8, 0x8b44f7af, 0xffff5bb1, 0x895cd7be,
   0x6b901122, 0xfd987193, 0xa679438e, 0x49b40821,
   0xf61e2562, 0xc040b340, 0x265e5a51, 0xe9b6c7aa,
   0xd62f105d, 0x02441453, 0xd8a1e681, 0xe7d3fbc8,
   0x21e1cde6, 0xc33707d6, 0xf4d50d87, 0x455a14ed,
   0xa9e3e905, 0xfcefa3f8, 0x676f02d9, 0x8d2a4c8a,
   0xfffa3942, 0x8771f681, 0x6d9d6122, 0xfde5380c,
   0xa4beea44, 0x4bdecfa9, 0xf6bb4b60, 0xbebfbc70,
   0x289b7ec6, 0xeaa127fa, 0xd4ef3085, 0x04881d05,
   0xd9d4d039, 0xe6db99e5, 0x1fa27cf8, 0xc4ac5665,
   0xf4292244, 0x432aff97, 0xab9423a7, 0xfc93a039,
   0x655b59c3, 0x8f0ccc92, 0xffeff47d, 0x85845dd1,
   0x6fa87e4f, 0xfe2ce6e0, 0xa3014314, 0x4e0811a1,
   0xf7537e82, 0xbd3af235, 0x2ad7d2bb, 0xeb86d391]

/-- Left rotation of a 32-bit word, expressed arithmetically. -/
def rotl32 (x c : Nat) : Nat :=
  (x % 2 ^ (32 - c)) * 2 ^ c + x / 2 ^ (32 - c)

/-- Bitwise complement of a 32-bit word. -/
def not32 (x : Nat) : Nat :=
  x ^^^ 0xffffffff

/-- MD5 padding: append `0x80`, zeros up to 56 mod 64 bytes, then the
original bit length as eight little-endian bytes. -/
def md5Pad (msg : List Nat) : List Nat :=
  let len := msg.length
  let zeros := (119 - len % 64) % 64
  let bitLen := (len * 8) % 2 ^ 64
  msg ++ [0x80] ++ List.replicate zeros 0 ++
    (List.range 8).map (fun i => bitLen / 2 ^ (8 * i) % 256)

/-- Split a byte list into 64-byte chunks (fuel-driven so that it reduces
definitionally; the fuel `l.length` always suffices). -/
def chunks64Fuel : Nat → List Nat → List (List Nat)
  | 0, _ => []
  | _, [] => []
  | fuel + 1, l => l.take 64 :: chunks64Fuel fuel (l.drop 64)

/-- Split a byte list into 64-byte chunks. -/
def chunks64 (l : List Nat) : List (List Nat) :=
  chunks64Fuel l.length l

/-- Little-endian 32-bit word `j` of a 64-byte chunk. -/
def leWord (chunk : List Nat) (j : Nat) : Nat :=
  chunk.getD (4 * j) 0 + chunk.getD (4 * j + 1) 0 * 256 +
    chunk.getD (4 * j + 2) 0 * 65536 + chunk.getD (4 * j + 3) 0 * 16777216

/-- One of the 64 MD5 rounds. -/
def md5Round (chunk : List Nat) (st : Nat × Nat × Nat × Nat) (i : Nat) :
    Nat × Nat × Nat × Nat :=
  let a := st.1
  let b := st.2.1
  let c := st.2.2.1
  let d := st.2.2.2
  let fg : Nat × Nat :=
    if i < 16 then ((b &&& c) ||| (not32 b &&& d), i)
    else if i < 32 then ((d &&& b) ||| (not32 d &&& c), (5 * i + 1) % 16)
    else if i < 48 then (b ^^^ c ^^^ d, (3 * i + 5) % 16)
    else (c ^^^ (b ||| not32 d), (7 * i) % 16)
  let f := (fg.1 + a + md5K.getD i 0 + leWord chunk fg.2) % 2 ^ 32
  (d, (b + rotl32 f (md5S.getD i 0)) % 2 ^ 32, b, c)

/-- Process one 64-byte chunk, updating the running MD5 state. -/
def md5ProcessChunk (st : Nat × Nat × Nat × Nat) (chunk : List Nat) :
    Nat × Nat × Nat × Nat :=
  let r := (List.range 64).foldl (md5Round chunk) st
  ((st.1 + r.1) % 2 ^ 32, (st.2.1 + r.2.1) % 2 ^ 32,
   (st.2.2.1 + r.2.2.1) % 2 ^ 32, (st.2.2.2 + r.2.2.2) % 2 ^ 32)

/-- Little-endian byte decomposition of a 32-bit word. -/
def leBytes (x : Nat) : List Nat :=
  [x % 256, x / 256 % 256, x / 65536 % 256, x / 16777216 % 256]

/-- The 16-byte MD5 digest of a byte list. -/
def md5Digest (msg : List Nat) : List Nat :=
  let f := (chunks64 (md5Pad msg)).foldl md5ProcessChunk
    (0x67452301, 0xefcdab89, 0x98badcfe, 0x10325476)
  leBytes f.1 ++ leBytes f.2.1 ++ leBytes f.2.2.1 ++ leBytes f.2.2.2

/-- The sixteen lowercase hexadecimal digit characters. -/
def hexChars : List Char :=
  "0123456789abcdef".data

/-- Hexadecimal digit character for a nibble. -/
def nibbleChar (n : Nat) : Char :=
  hexChars.getD n 'f'

/-- Two hexadecimal characters of one byte. -/
def byteHex (b : Nat) : List Char :=
  [nibbleChar (b / 16 % 16), nibbleChar (b % 16)]

/-- `hashlib.md5(bytes).hexdigest()`. -/
def md5HexOfBytes (msg : List Nat) : String :=
  ⟨(md5Digest msg).flatMap byteHex⟩

/-- `hashlib.md5(s.encode()).hexdigest()`. -/
def md5Hex (s : String) : String :=
  md5HexOfBytes (utf8Bytes s)

/-! ## The analysis cache (`backend/app/core/cache.py`) -/

/-- The summary of an uploaded dataframe that the cache's
`_hash_dataframe` inspects: the ordered column names, the row count and the
JSON rendering of `df.head(5).to_dict()`.  The pandas sample serialization is
kept as an opaque pre-rendered JSON string; every cache operation depends on
the dataframe only through this summary. -/
structure PyDataFrame where
  columns : List String
  rows : Nat
  sampleJson : String
deriving DecidableEq, Repr

/-- JSON rendering of a string (the column names of the repository involve no
characters needing JSON escapes). -/
def jsonStr (s : String) : String :=
  "\"" ++ s ++ "\""

/-- JSON rendering of a list of strings with `json.dumps` default
separators. -/
def jsonStrList (l : List String) : String :=
  "[" ++ String.intercalate ", " (l.map jsonStr) ++ "]"

/-- `json.dumps(cache_data, sort_keys=True)` for the dictionary built by
`AnalysisCache._hash_dataframe`: keys in sorted order `columns`, `sample`,
`shape`; the shape tuple renders as `[rows, cols]`; an empty dataframe uses
an empty sample dict. -/
def dfCacheJson (df : PyDataFrame) : String :=
  "\x7b\"columns\": " ++ jsonStrList df.columns ++
    ", \"sample\": " ++ (if 0 < df.rows then df.sampleJson else "\x7b\x7d") ++
    ", \"shape\": [" ++ toString df.rows ++ ", " ++ toString df.columns.length ++ "]\x7d"

/-- `AnalysisCache._hash_dataframe`.  (The `except` branch returning the
sentinel `"error_hash"` is unreachable in this model, where serialization is
total.) -/
def hashDataframe (df : PyDataFrame) : String :=
  md5Hex (dfCacheJson df)

/-- The query normalization `query.strip().lower()` applied by
`_generate_key` and `invalidate_by_query`. -/
def pyNormalizeQuery (q : String) : String :=
  pyLower (pyStrip q)

/-- `AnalysisCache._generate_key`: the MD5 hexdigest of
`f"{query.strip().lower()}|{data_hash}"`. -/
def generateKey (query data_hash : String) : String :=
  md5Hex (pyNormalizeQuery query ++ "|" ++ data_hash)

/-- `CacheEntry`: one stored cache record.  Timestamps are modelled as
integer seconds (`time.time()` becomes an explicit `Int`). -/
structure CacheEntry (α : Type) where
  key : String
  data : α
  timestamp : Int
  ttl : Int
  access_count : Nat
deriving DecidableEq, Repr

/-- `CacheEntry.is_expired`: `time.time() - self.timestamp > self.ttl`. -/
def isExpired (now : Int) (e : CacheEntry α) : Bool :=
  decide (now - e.timestamp > e.ttl)

/-- `AnalysisCache` state: the dict of entries is an insertion-ordered
association list with unique keys, matching CPython dict semantics. -/
structure AnalysisCache (α : Type) where
  max_size : Nat
  default_ttl : Int
  cache : List (String × CacheEntry α)
deriving Repr

/-- Dict lookup `self.cache.get(key)`. -/
def lookupAL (k : String) : List (String × CacheEntry α) → Option (CacheEntry α)
  | [] => none
  | p :: rest => if p.1 = k then some p.2 else lookupAL k rest

/-- Dict assignment `self.cache[key] = entry`: replace in place if the key
exists (keeping its position), otherwise append. -/
def insertAL (k : String) (v : CacheEntry α) :
    List (String × CacheEntry α) → List (String × CacheEntry α)
  | [] => [(k, v)]
  | p :: rest => if p.1 = k then (k, v) :: rest else p :: insertAL k v rest

/-- Dict deletion `del self.cache[key]`. -/
def eraseAL (k : String) :
    List (String × CacheEntry α) → List (String × CacheEntry α)
  | [] => []
  | p :: rest => if p.1 = k then rest else p :: eraseAL k rest

/-- The minimum `timestamp` over a nonempty entry list. -/
def minTimestamp : List (String × CacheEntry α) → Int
  | [] => 0
  | [p] => p.2.timestamp
  | p :: q :: rest => min p.2.timestamp (minTimestamp (q :: rest))

/-- `AnalysisCache._evict_lru`: delete the first entry (in dict iteration
order) holding the minimal `timestamp`; `min(keys, key=timestamp)` returns
the first minimal key. -/
def removeOldest : List (String × CacheEntry α) → List (String × CacheEntry α)
  | [] => []
  | [_] => []
  | p :: q :: rest =>
      if p.2.timestamp ≤ minTimestamp (q :: rest) then q :: rest
      else p :: removeOldest (q :: rest)

/-- `AnalysisCache._cleanup_expired`: drop every expired entry. -/
def cleanupExpired (now : Int) (l : List (String × CacheEntry α)) :
    List (String × CacheEntry α) :=
  l.filter (fun p => ¬ isExpired now p.2)

/-- The effective TTL assigned by `AnalysisCache.set`: the Python defaulting
`ttl = ttl or self.default_ttl` replaces both `None` and `0` by the default
(and keeps any other value, including negatives). -/
def effTtl (c : AnalysisCache α) (ttl : Option Int) : Int :=
  match ttl with
  | none => c.default_ttl
  | some t => if t = 0 then c.default_ttl else t

/-- `AnalysisCache.get`: compute the fingerprint, return the payload of a
fresh entry (bumping `access_count`), delete an expired entry, miss
otherwise.  Returns the result together with the updated cache state. -/
def cacheGet (c : AnalysisCache α) (now : Int) (query : String)
    (df : PyDataFrame) : Option α × AnalysisCache α :=
  let key := generateKey query (hashDataframe df)
  match lookupAL key c.cache with
  | some e =>
      if isExpired now e then (none, { c with cache := eraseAL key c.cache })
      else
        let touched : CacheEntry α := ⟨e.key, e.data, e.timestamp, e.ttl, e.access_count + 1⟩
        (some e.data, { c with cache := insertAL key touched c.cache })
  | none => (none, c)

/-- `AnalysisCache.set`: build the entry with `createdAt = now`; when at
capacity first sweep expired entries, then evict the oldest entry if still
at capacity, and finally insert. -/
def cacheSet (c : AnalysisCache α) (now : Int) (query : String)
    (df : PyDataFrame) (data : α) (ttl : Option Int) : AnalysisCache α :=
  let key := generateKey query (hashDataframe df)
  let entry : CacheEntry α := ⟨key, data, now, effTtl c ttl, 0⟩
  let l1 := if c.max_size ≤ c.cache.length then cleanupExpired now c.cache else c.cache
  let l2 := if c.max_size ≤ l1.length then removeOldest l1 else l1
  { c with cache := insertAL key entry l2 }

/-- `AnalysisCache.invalidate_by_query`: collect every key that contains a
`|` whose prefix before the first `|` equals the normalized query, delete
those keys, and return how many were deleted. -/
def cacheInvalidateByQuery (c : AnalysisCache α) (query : String) :
    Nat × AnalysisCache α :=
  let ql := pyNormalizeQuery query
  let matchesQ := fun (p : String × CacheEntry α) =>
    containsChar p.1 '|' && firstField p.1 '|' = ql
  ((c.cache.filter matchesQ).length,
   { c with cache := c.cache.filter (fun p => ¬ matchesQ p) })

/-- `AnalysisCache.clear`. -/
def cacheClear (c : AnalysisCache α) : Nat × AnalysisCache α :=
  (c.cache.length, { c with cache := [] })

/-! ## The result validator (`backend/app/core/result_validator.py`)

The regex searches of the validator are embedded as direct character-list
scanners.  Each scanner implements exactly the language of its pattern
(restricted to ASCII input): the multiline anchors try the pattern at the
string start and after every newline, and the character classes involved are
disjoint, so the greedy backtracking of the originals collapses to the
deterministic scans below. -/

/-- Addition on `ℚ` through `mkRat`, so that scores reduce inside the
kernel (the library's `Rat.add` is deliberately irreducible). -/
def qAdd (a b : ℚ) : ℚ := mkRat (a.num * b.den + b.num * a.den) (a.den * b.den)

/-- Subtraction on `ℚ` through `mkRat`. -/
def qSub (a b : ℚ) : ℚ := mkRat (a.num * b.den - b.num * a.den) (a.den * b.den)

/-- Multiplication on `ℚ` through `mkRat`. -/
def qMul (a b : ℚ) : ℚ := mkRat (a.num * b.num) (a.den * b.den)

/-- Division on `ℚ` through `mkRat` (never applied to zero denominators by
the validator). -/
def qDiv (a b : ℚ) : ℚ :=
  mkRat (a.num * b.den * (if b.num < 0 then -1 else 1)) (a.den * b.num.natAbs)

/-- Python `min` on two rationals, kept as an executable conditional. -/
def ratMin (a b : ℚ) : ℚ := if a ≤ b then a else b

/-- Python `max` on two rationals, kept as an executable conditional. -/
def ratMax (a b : ℚ) : ℚ := if a ≤ b then b else a

/-- `ValidationResult` (scores as exact rationals in place of floats). -/
structure ValidationResult where
  is_valid : Bool
  score : ℚ
  issues : List String
  suggestions : List String
deriving DecidableEq, Repr

/-- Run a line-start matcher after every newline of the text. -/
def scanAfterNewlines (p : List Char → Bool) : List Char → Bool
  | [] => false
  | c :: rest => (c = '\n' && p rest) || scanAfterNewlines p rest

/-- `re.search(pat, content, re.MULTILINE)` for a line-start-anchored
pattern: try the matcher at position 0 and after every newline. -/
def searchMultiline (p : List Char → Bool) (cs : List Char) : Bool :=
  p cs || scanAfterNewlines p cs

/-- After the first `#`: consume further `#`s, then require a `\s` char. -/
def hashRunThenWs : List Char → Bool
  | [] => false
  | c :: rest => if c = '#' then hashRunThenWs rest else isPyWs c

/-- Matcher for `#+\s` at a line start. -/
def matchHeaderAt : List Char → Bool
  | [] => false
  | c :: rest => c = '#' && hashRunThenWs rest

/-- Matcher for `[\s]*[-\*]\s` at a line start. -/
def matchBulletAt : List Char → Bool
  | [] => false
  | c :: rest =>
      if isPyWs c then matchBulletAt rest
      else if c = '-' ∨ c = '*' then
        match rest with
        | d :: _ => isPyWs d
        | [] => false
      else false

/-- After the first digit of `\s*\d+\.\s`: further digits, a dot, a `\s`. -/
def digitsThenDotWs : List Char → Bool
  | [] => false
  | c :: rest =>
      if c.isDigit then digitsThenDotWs rest
      else c = '.' && (match rest with | d :: _ => isPyWs d | [] => false)

/-- Matcher for `^\s*\d+\.\s` at a line start. -/
def matchNumberedAt : List Char → Bool
  | [] => false
  | c :: rest =>
      if isPyWs c then matchNumberedAt rest
      else c.isDigit && digitsThenDotWs rest

/-- Match the tail `\s*\n` of the paragraph separator `\n\s*\n` (leftmost
longest, as the greedy `re.split` match does); returns the suffix after the
separator. -/
def sepAfter : List Char → Option (List Char)
  | [] => none
  | c :: rest =>
      if isPyWs c then
        match sepAfter rest with
        | some r => some r
        | none => if c = '\n' then some rest else none
      else none

/-- `re.split(r'\n\s*\n', content)` (fuel-driven structural recursion; the
fuel `cs.length` always suffices since every separator consumes at least one
character). -/
def splitParasFuel : Nat → List Char → List Char → List (List Char)
  | _, [], acc => [acc.reverse]
  | 0, cs, acc => [acc.reverse ++ cs]
  | fuel + 1, c :: rest, acc =>
      if c = '\n' then
        match sepAfter rest with
        | some r => acc.reverse :: splitParasFuel fuel r []
        | none => splitParasFuel fuel rest (c :: acc)
      else splitParasFuel fuel rest (c :: acc)

/-- Paragraphs of the content, as split by `re.split(r'\n\s*\n', ...)`. -/
def splitParagraphs (cs : List Char) : List (List Char) :=
  splitParasFuel cs.length cs []

/-- `ResultValidator._validate_structure`. -/
def structureScore (cs : List Char) : ℚ :=
  let s1 : ℚ := qAdd (mkRat 1 2) (if searchMultiline matchHeaderAt cs then mkRat 1 5 else 0)
  let s2 := qAdd s1
    (if searchMultiline matchBulletAt cs || searchMultiline matchNumberedAt cs
     then mkRat 3 20 else 0)
  let meaningful := (splitParagraphs cs).countP (fun p => 20 < (pyStrip ⟨p⟩).length)
  ratMin 1 (qAdd s2 (if 2 ≤ meaningful then mkRat 3 20 else 0))

/-- Remaining digits of a digit run, then a non-word (or end) boundary. -/
def digitRunThenBoundary : List Char → Bool
  | [] => true
  | c :: rest => if c.isDigit then digitRunThenBoundary rest else ¬ isWordChar c

/-- Scanner for `re.search(r'\b\d+(\.\d+)?%?\b', content)`: a match exists
iff some maximal digit run has a word boundary before it and a non-word
character (or the end) after it; the optional `.digits` and `%` groups never
enable additional matches because `.` and `%` are themselves non-word
characters. -/
def hasNumericAux : Option Char → List Char → Bool
  | _, [] => false
  | prev, c :: rest =>
      (c.isDigit &&
        (match prev with | none => true | some p => ¬ isWordChar p) &&
        digitRunThenBoundary rest)
      || hasNumericAux (some c) rest

/-- Whether the content contains a number/percentage token. -/
def hasNumericToken (cs : List Char) : Bool :=
  hasNumericAux none cs

/-- The insight-indicator keywords of `_validate_content_quality`. -/
def insightIndicators : List String :=
  ["increase", "decrease", "trend", "pattern", "correlation",
   "higher than", "lower than"]

/-- The actionable-content keywords of `_validate_content_quality`. -/
def actionWords : List String :=
  ["recommend", "suggest", "should", "consider", "action"]

/-- `ResultValidator._validate_content_quality` (the `query` argument of the
original is unused by its body). -/
def qualityScore (cs : List Char) (lower : String) : ℚ :=
  let s1 : ℚ := qAdd (mkRat 1 2) (if hasNumericToken cs then mkRat 1 5 else 0)
  let found := insightIndicators.countP (fun w => strContains lower w)
  let s2 := qAdd s1 (ratMin (mkRat 1 5) (qMul (found : ℚ) (mkRat 1 20)))
  ratMin 1 (qAdd s2 (if actionWords.any (fun w => strContains lower w) then mkRat 1 10 else 0))

/-- Maximal runs of `\w` characters: `re.findall(r'\b\w+\b', s)`. -/
def wordsOfAux : List Char → List Char → List String
  | [], acc => if acc.isEmpty then [] else [⟨acc.reverse⟩]
  | c :: rest, acc =>
      if isWordChar c then wordsOfAux rest (c :: acc)
      else if acc.isEmpty then wordsOfAux rest []
      else ⟨acc.reverse⟩ :: wordsOfAux rest []

/-- The words of a string. -/
def wordsOf (s : String) : List String :=
  wordsOfAux s.data []

/-- First-occurrence deduplication, modelling Python `set` cardinality and
membership. -/
def dedupAcc : List String → List String → List String
  | [], _ => []
  | x :: rest, seen =>
      if seen.contains x then dedupAcc rest seen
      else x :: dedupAcc rest (x :: seen)

/-- Distinct elements of a list. -/
def dedupStr (l : List String) : List String :=
  dedupAcc l []

/-- The analysis-vocabulary list of `_validate_relevance`. -/
def analysisIndicators : List String :=
  ["analysis", "report", "summary", "findings", "results", "data",
   "correlation", "relationship", "comparison", "statistics", "insights"]

/-- `ResultValidator._validate_relevance`. -/
def relevanceScore (content query : String) : ℚ :=
  let ql := pyLower query
  let cl := pyLower content
  let analysisScore : ℚ :=
    qDiv (analysisIndicators.countP (fun t => strContains cl t) : ℚ)
      (analysisIndicators.length : ℚ)
  let qw := dedupStr (wordsOf ql)
  let cw := dedupStr (wordsOf cl)
  let overlap := (qw.filter (fun w => cw.contains w)).length
  let overlapScore : ℚ := qDiv (overlap : ℚ) ((max qw.length 1 : Nat) : ℚ)
  let semantic : ℚ :=
    qAdd (qAdd
      (if ["make", "manufacturer", "model", "vehicle", "car"].any
          (fun w => strContains cl w) then mkRat 3 10 else 0)
      (if ["correlation", "relationship", "comparison"].any
          (fun w => strContains cl w) then mkRat 3 10 else 0))
      (if ["percentage", "average", "total", "count"].any
          (fun w => strContains cl w) then mkRat 1 5 else 0)
  let r := qAdd (qAdd (qMul overlapScore (mkRat 2 5)) (qMul analysisScore (mkRat 3 10)))
    (qMul semantic (mkRat 3 10))
  let r :=
    if containsChar query '?' &&
        ["answer", "result", "finding", "analysis", "report"].any
          (fun w => strContains cl w) then qAdd r (mkRat 1 5) else r
  ratMin 1 r

/-- `ResultValidator._get_structure_feedback`. -/
def structureFeedback (cs : List Char) : List String × List String :=
  let f1 := ¬ searchMultiline matchHeaderAt cs
  let f2 := ¬ (searchMultiline matchBulletAt cs || searchMultiline matchNumberedAt cs)
  ((if f1 then ["Content lacks clear section headers"] else []) ++
     (if f2 then ["Content could benefit from lists"] else []),
   (if f1 then ["Use markdown headers (# ## ###) to organize content into sections"] else []) ++
     (if f2 then ["Use bullet points or numbered lists for key findings and recommendations"] else []))

/-- `ResultValidator._get_quality_feedback` (its keyword list omits
`"action"`, unlike the scoring list). -/
def qualityFeedback (cs : List Char) (lower : String) : List String × List String :=
  let f1 := ¬ hasNumericToken cs
  let f2 := ¬ (["recommend", "suggest", "should", "consider"].any
    (fun w => strContains lower w))
  ((if f1 then ["Analysis lacks specific numbers or metrics"] else []) ++
     (if f2 then ["Analysis lacks actionable recommendations"] else []),
   (if f1 then ["Include concrete numbers, percentages, and statistics to support findings"] else []) ++
     (if f2 then ["Provide specific recommendations based on the analysis"] else []))

/-- `ResultValidator.validate_analysis_result`. -/
def validateAnalysisResult (content query : String) : ValidationResult :=
  if pyStrip content = "" then
    ⟨false, 0, ["Content is empty"],
     ["Ensure the analysis generates meaningful output"]⟩
  else
    let c := pyStrip content
    let cs := c.data
    let lower := pyLower c
    let tooShort := c.length < 50
    let tooLong := 10000 < c.length
    let score1 : ℚ :=
      qSub (qSub 1 (if tooShort then mkRat 3 10 else 0)) (if tooLong then mkRat 1 10 else 0)
    let iss1 :=
      (if tooShort then
        ["Content too short (" ++ toString c.length ++ " chars, minimum 50)"] else []) ++
      (if tooLong then
        ["Content too long (" ++ toString c.length ++ " chars, maximum 10000)"] else [])
    let sug1 :=
      (if tooShort then ["Expand the analysis with more detailed explanations"] else []) ++
      (if tooLong then ["Consider summarizing key points more concisely"] else [])
    let st := structureScore cs
    let score2 := qMul score1 st
    let fb2 := if st < mkRat 4 5 then structureFeedback cs else ([], [])
    let qs := qualityScore cs lower
    let score3 := qMul score2 qs
    let fb3 := if qs < mkRat 4 5 then qualityFeedback cs lower else ([], [])
    let rel := relevanceScore c query
    let score4 := qAdd (qMul score3 (mkRat 4 5)) (qMul rel (mkRat 1 5))
    let fb4 :=
      if rel < mkRat 3 10 then
        (["Content may not fully address the query"],
         ["Ensure analysis directly answers the user\x27s specific question"])
      else ([], [])
    let score5 := ratMax 0 (ratMin 1 score4)
    ⟨decide (mkRat 2 5 ≤ score5), score5,
     iss1 ++ fb2.1 ++ fb3.1 ++ fb4.1,
     sug1 ++ fb2.2 ++ fb3.2 ++ fb4.2⟩

/-- First alternative of the column-reference pattern
`df\[['\"]([^'\"]+)['\"]\]`: on success, the captured column name and the
suffix after the match. -/
def alt1Match : List Char → Option (String × List Char)
  | 'd' :: 'f' :: '[' :: q :: rest =>
      if q = '\x27' ∨ q = '"' then
        let run := rest.takeWhile (fun c => ¬ (c = '\x27' ∨ c = '"'))
        match rest.drop run.length with
        | q2 :: ']' :: rest2 =>
            if ¬ run.isEmpty ∧ (q2 = '\x27' ∨ q2 = '"') then some (⟨run⟩, rest2)
            else none
        | _ => none
      else none
  | _ => none

/-- Second alternative `df\.(\w+)`. -/
def alt2Match : List Char → Option (String × List Char)
  | 'd' :: 'f' :: '.' :: rest =>
      let run := rest.takeWhile isWordChar
      if run.isEmpty then none else some (⟨run⟩, rest.drop run.length)
  | _ => none

/-- `re.findall` scan for the column-reference pattern (fuel-driven; the
fuel `cs.length` always suffices since every match consumes at least one
character). -/
def findColumnRefsFuel : Nat → List Char → List String
  | 0, _ => []
  | _, [] => []
  | fuel + 1, c :: t =>
      match alt1Match (c :: t) with
      | some (col, rest) => col :: findColumnRefsFuel fuel rest
      | none =>
          match alt2Match (c :: t) with
          | some (col, rest) => col :: findColumnRefsFuel fuel rest
          | none => findColumnRefsFuel fuel t

/-- `ResultValidator._extract_column_references`.  The original applies
`list(set(...))`, whose ordering is interpreter-dependent; the model keeps
the first occurrence of each name (every claim checked below involves at
most one offending column, where the ordering is irrelevant). -/
def extractColumnReferences (code : String) : List String :=
  dedupStr (findColumnRefsFuel code.data.length code.data)

/-- Python `repr` of a list of strings, as rendered into f-string issues. -/
def pyReprStrList (l : List String) : String :=
  "[" ++ String.intercalate ", " (l.map (fun s => "\x27" ++ s ++ "\x27")) ++ "]"

/-- `ResultValidator._check_basic_syntax`. -/
def checkBasicSyntax (code : String) : List String :=
  let cs := code.data
  let sq := countChar code '\x27' - countPair '\\' '\x27' cs
  let dq := countChar code '"' - countPair '\\' '"' cs
  (if sq % 2 ≠ 0 then ["Unmatched single quotes in code"] else []) ++
    (if dq % 2 ≠ 0 then ["Unmatched double quotes in code"] else []) ++
    (if countChar code '(' ≠ countChar code ')' then ["Unmatched parentheses in code"] else []) ++
    (if countChar code '[' ≠ countChar code ']' then ["Unmatched square brackets in code"] else []) ++
    (if countChar code '\x7b' ≠ countChar code '\x7d' then ["Unmatched curly braces in code"] else [])

/-- `ResultValidator.validate_visualization_code`. -/
def validateVisualizationCode (code : String) (df_columns : List String) :
    ValidationResult :=
  if pyStrip code = "" then
    ⟨false, 0, ["Code is empty"], ["Generate valid Python code for visualization"]⟩
  else
    let noFig := ¬ strContains code "fig"
    let noPlotly := ¬ (strContains code "px." || strContains code "go.")
    let noDf := ¬ strContains code "df" && ¬ strContains code "pd.read_csv"
    let used := extractColumnReferences code
    let invalid := used.filter (fun col => ¬ df_columns.contains col)
    let syn := checkBasicSyntax code
    let score : ℚ :=
      qSub (qSub (qSub (qSub (qSub 1
        (if noFig then mkRat 1 2 else 0))
        (if noPlotly then mkRat 2 5 else 0))
        (if noDf then mkRat 3 10 else 0))
        (if ¬ invalid.isEmpty then mkRat 1 5 else 0))
        (qMul (mkRat 1 10) (syn.length : ℚ))
    let score := ratMax 0 (ratMin 1 score)
    ⟨decide (mkRat 1 2 ≤ score), score,
     (if noFig then ["Code does not create a \x27fig\x27 object"] else []) ++
       (if noPlotly then ["Code does not use Plotly libraries"] else []) ++
       (if noDf then ["Code does not reference the dataframe"] else []) ++
       (if ¬ invalid.isEmpty then
         ["Code references non-existent columns: " ++ pyReprStrList invalid] else []) ++
       syn,
     (if noFig then ["Ensure the code creates a Plotly figure object named \x27fig\x27"] else []) ++
       (if noPlotly then ["Use Plotly Express (px) or Graph Objects (go) for visualization"] else []) ++
       (if noDf then ["Use the provided dataframe \x27df\x27 in your visualization code"] else []) ++
       (if ¬ invalid.isEmpty then
         ["Use only available columns: " ++ pyReprStrList df_columns] else []) ++
       (if ¬ syn.isEmpty then ["Fix syntax errors in the generated code"] else [])⟩

/-! ## The Groq client (`backend/scripts/custom_groq_llm.py`)

`CustomGroqLLM.call` is a retry loop around `requests.post`.  The network
environment is an explicit list giving the outcome of each successive HTTP
attempt; waits are accounted symbolically in seconds instead of sleeping. -/

/-- Outcome of one HTTP attempt: a response (status, body text, and the
first choice's content when present), a request timeout, or a transport
error. -/
inductive GroqAttemptOutcome where
  | http (status : Nat) (body : String) (content : Option String)
  | timeout
  | transportError (msg : String)
deriving DecidableEq, Repr

/-- Result of a `call` run: the returned text or the raised error message,
the number of HTTP attempts made, and the total backoff wait in seconds. -/
structure GroqCallResult where
  result : Except String String
  attempts : Nat
  totalWait : Nat
deriving Repr

/-- `max_retries` of `CustomGroqLLM.call`: 5 total attempts. -/
def groqMaxRetries : Nat := 5

/-- `retry_delay` of `CustomGroqLLM.call`: 30 seconds base delay. -/
def groqRetryDelay : Nat := 30

/-- The body of `CustomGroqLLM.call`'s `for retry in range(max_retries)`
loop, from retry index `retryIdx`.  A 200 returns the first choice content
(or the `"No response content found"` sentinel); a 429 or a body containing
`"rate_limit_exceeded"` waits `retry_delay * (retry+1)` seconds and retries,
raising after the last attempt; any other status, a timeout, or a transport
error retries with the same backoff.

The `raise ValueError(error_msg)` for a non-429 4xx happens inside the
`try`, so the blanket `except Exception as e` handler catches it: when
attempts remain and `str(e)` carries a rate-limit indicator
(`"rate_limit_exceeded"` or `"429"`, e.g. from the response body echoed into
the message), the 4xx is retried with the same backoff; otherwise the
handler re-raises and the call fails immediately.  The other two raises
inside the `try` (the rate-limit and generic exhaustion raises) only occur
on the final attempt, where the handler's `retry < max_retries - 1` test is
false, so re-catching leaves their behaviour unchanged.  (Exceptions raised
by `response.json()` on a malformed 200 body are part of the environment
abstraction and not modelled.) -/
def groqCallAux : List GroqAttemptOutcome → Nat → Nat → Nat → GroqCallResult
  | [], _, att, wait => ⟨.error "no attempt outcome supplied", att, wait⟩
  | o :: rest, retryIdx, att, wait =>
      let n := att + 1
      let retryOrFail := fun (failMsg : String) =>
        if retryIdx < groqMaxRetries - 1 then
          groqCallAux rest (retryIdx + 1) n (wait + groqRetryDelay * (retryIdx + 1))
        else ⟨.error failMsg, n, wait⟩
      match o with
      | .http status body content =>
          if status = 200 then
            ⟨.ok (match content with
                  | some s => s
                  | none => "No response content found"), n, wait⟩
          else if status = 429 || strContains body "rate_limit_exceeded" then
            retryOrFail ("Groq API rate limit exceeded after " ++
              toString groqMaxRetries ++ " retries: " ++ body)
          else if 400 ≤ status ∧ status < 500 then
            let errMsg := "Groq API returned error " ++ toString status ++ ": " ++ body
            if retryIdx < groqMaxRetries - 1 ∧
                (strContains errMsg "rate_limit_exceeded" = true ∨
                  strContains errMsg "429" = true) then
              groqCallAux rest (retryIdx + 1) n (wait + groqRetryDelay * (retryIdx + 1))
            else ⟨.error errMsg, n, wait⟩
          else
            retryOrFail ("Groq API returned error " ++ toString status ++ ": " ++ body)
      | .timeout =>
          retryOrFail ("Groq API request timeout after " ++
            toString groqMaxRetries ++ " attempts")
      | .transportError msg =>
          retryOrFail ("Groq API request failed: " ++ msg)

/-- `CustomGroqLLM.call` under a given sequence of attempt outcomes. -/
def groqCall (outcomes : List GroqAttemptOutcome) : GroqCallResult :=
  groqCallAux outcomes 0 0 0

/-! ## The orchestrator (`backend/scripts/crew.py`) and the analysis
boundary handler (`backend/app/routers/analysis.py`)

`CustomCrew.run` drives up to `max_retries + 1` executions of the agent
pipeline and falls back to `_create_fallback_result` when all fail.  The
pipeline and the fallback crew are external capabilities, modelled by an
explicit environment: the outcome of each `_execute_crew` call in order, and
the raw output of the fallback crew (`none` when its `kickoff` raises). -/

/-- Outcome of one `_execute_crew` invocation: an exception with message
`msg`, or a crew output whose `.raw` is the given string. -/
inductive CrewAttempt where
  | raised (msg : String)
  | returned (raw : String)
deriving DecidableEq, Repr

/-- The external environment of one `CustomCrew.run` invocation. -/
structure CrewEnv where
  attempts : List CrewAttempt
  fallbackRaw : Option String
deriving DecidableEq, Repr

/-- `CustomCrew.max_retries`. -/
def crewMaxRetries : Nat := 2

/-- `CustomCrew._validate_result`: the result must be truthy and its
stripped `.raw` content at least 10 characters long. -/
def crewValidateResult (raw : String) : Bool :=
  10 ≤ (pyStrip raw).length

/-- The banner-wrapped fallback content built by `_create_fallback_result`
when the fallback crew returns a truthy `.raw`. -/
def fallbackBanner (raw : String) : String :=
  "\n# Fallback Analysis\n\nThe primary analysis encountered issues, but here\x27s a basic analysis of your data:\n\n"
    ++ raw ++
    "\n\n## Note:\nThis is a simplified analysis due to processing constraints. For more detailed insights, please try rephrasing your query or check your data format.\n"

/-- The static message built by `_create_fallback_result` when the fallback
crew itself fails or returns empty output. -/
def fallbackStatic (error : String) : String :=
  "\n# Analysis Unavailable\n\nWe encountered an error while processing your request: "
    ++ error ++
    "\n\n## Possible Solutions:\n- Please check your query for clarity and completeness\n- Ensure your data is properly formatted\n- Try rephrasing your question\n- Contact support if the issue persists\n\n## What We Tried:\n- Validated your input query\n- Attempted multiple processing strategies\n- Applied error recovery mechanisms\n- Tried fallback analysis (also failed)\n\nIf this problem continues, please provide more details about your data and query requirements.\n"

/-- `CustomCrew._create_fallback_result`: banner-wrap a truthy fallback
output, otherwise synthesize the static message embedding the last error. -/
def fallbackContent (fb : Option String) (lastError : String) : String :=
  match fb with
  | some raw => if raw = "" then fallbackStatic lastError else fallbackBanner raw
  | none => fallbackStatic lastError

/-- Result of one `CustomCrew.run`: the returned `.raw` text, how many
primary `_execute_crew` attempts ran, how many times the fallback pipeline
was invoked, and the backoff sleeps (in seconds) performed between
attempts. -/
structure CrewRunResult where
  raw : String
  attemptsUsed : Nat
  fallbackCalls : Nat
  sleeps : List Nat
deriving DecidableEq, Repr

/-- The loop of `CustomCrew.run` (`for attempt in range(max_retries + 1)`),
from attempt index `attemptIdx`: an exception records the error and retries
after sleeping `attempt + 1` seconds (no sleep after the final attempt); a
returned result is accepted iff `_validate_result` passes, a too-short
result retries without sleeping; exhaustion invokes the fallback once. -/
def crewRunLoop (fb : Option String) : List CrewAttempt → Nat → String →
    List Nat → CrewRunResult
  | [], attemptIdx, lastError, sleeps =>
      ⟨fallbackContent fb lastError, attemptIdx, 1, sleeps⟩
  | a :: rest, attemptIdx, lastError, sleeps =>
      if crewMaxRetries + 1 ≤ attemptIdx then
        ⟨fallbackContent fb lastError, attemptIdx, 1, sleeps⟩
      else
        match a with
        | .raised msg =>
            if attemptIdx < crewMaxRetries then
              crewRunLoop fb rest (attemptIdx + 1) msg (sleeps ++ [attemptIdx + 1])
            else ⟨fallbackContent fb msg, attemptIdx + 1, 1, sleeps⟩
        | .returned raw =>
            if crewValidateResult raw then ⟨raw, attemptIdx + 1, 0, sleeps⟩
            else if attemptIdx < crewMaxRetries then
              crewRunLoop fb rest (attemptIdx + 1) "Result validation failed" sleeps
            else ⟨fallbackContent fb "Result validation failed", attemptIdx + 1, 1, sleeps⟩

/-- `CustomCrew.run` under a given environment. -/
def crewRun (env : CrewEnv) : CrewRunResult :=
  crewRunLoop env.fallbackRaw env.attempts 0 "" []

/-- The `AnalysisResponse` pydantic model (`backend/app/models.py`). -/
structure AnalyzeResponse where
  query : String
  analysis : String
  status : String
deriving DecidableEq, Repr

/-- The quality-feedback block appended by `analyze_data` when validation
fails: a header, the first three issues, and the first three suggestions. -/
def renderQualityFeedback (v : ValidationResult) : String :=
  let base := "\n\n--- Quality Assessment ---\n"
  let base :=
    if v.issues.isEmpty then base
    else base ++ "Issues found:\n" ++
      String.intercalate "\n" ((v.issues.take 3).map (fun i => "- " ++ i))
  if v.suggestions.isEmpty then base
  else base ++ "\n\nSuggestions:\n" ++
    String.intercalate "\n" ((v.suggestions.take 3).map (fun s => "- " ++ s))

/-- Observable outcome of one `POST /analysis/analyze` request: the HTTP
response (`.error` carries the detail of a raised `HTTPException`), the final
cache state, and how the crew ran. -/
structure AnalyzeOutcome where
  response : Except String AnalyzeResponse
  cache : AnalysisCache String
  crewRan : Bool
  attemptsUsed : Nat
  fallbackCalls : Nat
deriving Repr

/-- The `analyze_data` handler, from the point where the sanitized query and
a nonempty dataframe are in hand (the request-validation glue above that
point is outside the orchestration core).  It consults the cache (a truthy
cached payload short-circuits), runs the crew, rejects empty output, runs
the validator, annotates an invalid-but-salvageable result, raises HTTP 500
when the score is below 0.3, and otherwise caches and returns the text with
status `"success"`. -/
def analyzeData (c : AnalysisCache String) (now : Int) (query : String)
    (df : PyDataFrame) (env : CrewEnv) : AnalyzeOutcome :=
  let got := cacheGet c now query df
  let hit : Bool := match got.1 with
    | some s => decide (¬ s = "")
    | none => false
  if hit then
    ⟨.ok ⟨query, got.1.getD "", "success"⟩, got.2, false, 0, 0⟩
  else
    let r := crewRun env
    if r.raw = "" then
      ⟨.error "L\x27analyse n\x27a produit aucun résultat", got.2, true,
       r.attemptsUsed, r.fallbackCalls⟩
    else
      let v := validateAnalysisResult r.raw query
      if v.is_valid then
        ⟨.ok ⟨query, r.raw, "success"⟩,
         cacheSet got.2 now query df r.raw none, true,
         r.attemptsUsed, r.fallbackCalls⟩
      else if v.score < mkRat 3 10 then
        ⟨.error "La qualité du résultat d\x27analyse est insuffisante", got.2, true,
         r.attemptsUsed, r.fallbackCalls⟩
      else
        let annotated := r.raw ++ renderQualityFeedback v
        ⟨.ok ⟨query, annotated, "success"⟩,
         cacheSet got.2 now query df annotated none, true,
         r.attemptsUsed, r.fallbackCalls⟩

/-- Observation on an analyze outcome: every response the handler manages to
return carries the literal status `"success"` (error responses are raised
`HTTPException`s and carry no status at all). -/
def respStatusSuccessOrError : Except String AnalyzeResponse → Bool
  | .ok r => r.status == "success"
  | .error _ => true

/-- Observation on an analyze outcome started from an empty cache: a
returned response leaves exactly one entry in the cache (the produced text
was written), while an error response leaves the cache empty. -/
def okWroteOneEntry (out : AnalyzeOutcome) : Bool :=
  match out.response with
  | .ok _ => out.cache.cache.length == 1
  | .error _ => out.cache.cache.isEmpty

/-! ## Sanity checks of the MD5 embedding against known digests -/

theorem md5Hex_empty_string : md5Hex "" = "d41d8cd98f00b204e9800998ecf8427e" := by rfl

theorem md5Hex_abc : md5Hex "abc" = "900150983cd24fb0d6963f7d28e17f72" := by rfl

theorem md5Hex_with_pipe : md5Hex "x|abc" = "b4b96dc2fa38bb92a4aa62a6004d35bd" := by rfl

/-! ## Helper lemmas -/

theorem getD_ne_of_forall (l : List Char) (d : Char) (x : Char)
    (h : ∀ a ∈ l, a ≠ x) (hd : d ≠ x) : ∀ n, l.getD n d ≠ x := by
  intro n
  induction l generalizing n with
  | nil => simpa [List.getD] using hd
  | cons a t ih =>
    cases n with
    | zero => simpa [List.getD] using h a (List.mem_cons_self a t)
    | succ m =>
      simpa [List.getD] using ih (fun b hb => h b (List.mem_cons_of_mem a hb)) m

theorem nibbleChar_ne_pipe (n : Nat) : nibbleChar n ≠ '|' :=
  getD_ne_of_forall hexChars 'f' '|' (by decide) (by decide) n

theorem mem_byteHex_flatMap_ne_pipe (c : Char) (l : List Nat)
    (h : c ∈ l.flatMap byteHex) : c ≠ '|' := by
  rw [List.mem_flatMap] at h
  obtain ⟨b, _, hc⟩ := h
  simp only [byteHex, List.mem_cons, List.not_mem_nil, or_false] at hc
  rcases hc with hc | hc <;> exact hc ▸ nibbleChar_ne_pipe _

/-- An MD5 hexdigest consists of hexadecimal characters only, so it never
contains the `|` separator character. -/
theorem md5Hex_no_pipe (s : String) : containsChar (md5Hex s) '|' = false := by
  rw [containsChar, List.any_eq_false]
  intro c hc
  simp only [decide_eq_true_eq]
  exact mem_byteHex_flatMap_ne_pipe c _ hc

/-- Every key `_generate_key` can produce is free of the `|` separator. -/
theorem generateKey_no_pipe (query data_hash : String) :
    containsChar (generateKey query data_hash) '|' = false :=
  md5Hex_no_pipe _

theorem lookupAL_insertAL_self {α : Type} (k : String) (v : CacheEntry α)
    (l : List (String × CacheEntry α)) :
    lookupAL k (insertAL k v l) = some v := by
  induction l with
  | nil => simp [insertAL, lookupAL]
  | cons p rest ih =>
    by_cases h : p.1 = k
    · simp [insertAL, lookupAL, h]
    · simp [insertAL, lookupAL, h, ih]

theorem length_insertAL_le {α : Type} (k : String) (v : CacheEntry α)
    (l : List (String × CacheEntry α)) :
    (insertAL k v l).length ≤ l.length + 1 := by
  induction l with
  | nil => simp [insertAL]
  | cons p rest ih =>
    by_cases h : p.1 = k
    · simp [insertAL, h]
    · simp only [insertAL, if_neg h, List.length_cons]
      omega

theorem length_insertAL_of_lookup {α : Type} (k : String) (v : CacheEntry α)
    (e : CacheEntry α) (l : List (String × CacheEntry α))
    (h : lookupAL k l = some e) : (insertAL k v l).length = l.length := by
  induction l with
  | nil => simp [lookupAL] at h
  | cons p rest ih =>
    by_cases hp : p.1 = k
    · simp [insertAL, hp]
    · simp only [lookupAL, if_neg hp] at h
      simp only [insertAL, if_neg hp, List.length_cons, ih h]

theorem length_eraseAL_le {α : Type} (k : String)
    (l : List (String × CacheEntry α)) :
    (eraseAL k l).length ≤ l.length := by
  induction l with
  | nil => simp [eraseAL]
  | cons p rest ih =>
    by_cases h : p.1 = k
    · simp [eraseAL, h]
    · simp only [eraseAL, if_neg h, List.length_cons]
      omega

theorem removeOldest_length {α : Type} (l : List (String × CacheEntry α))
    (h : l ≠ []) : (removeOldest l).length + 1 = l.length := by
  induction l with
  | nil => exact absurd rfl h
  | cons p rest ih =>
    cases rest with
    | nil => simp [removeOldest]
    | cons q t =>
      rw [removeOldest]
      split
      · simp
      · have := ih (by simp)
        simp only [List.length_cons] at this ⊢
        omega

/-- `set` then `get` for (effectively) the same normalized query: the entry
just written is found, and it is returned whenever it has not expired. -/
theorem cacheGet_after_set {α : Type} (c : AnalysisCache α) (now now' : Int)
    (q q' : String) (df : PyDataFrame) (p : α) (t : Option Int)
    (hq : pyNormalizeQuery q' = pyNormalizeQuery q)
    (h : ¬ (now' - now > effTtl c t)) :
    (cacheGet (cacheSet c now q df p t) now' q' df).1 = some p := by
  have hkey : generateKey q' (hashDataframe df) = generateKey q (hashDataframe df) := by
    unfold generateKey
    rw [hq]
  have hlook : lookupAL (generateKey q (hashDataframe df)) (cacheSet c now q df p t).cache
      = some ⟨generateKey q (hashDataframe df), p, now, effTtl c t, 0⟩ := by
    unfold cacheSet
    exact lookupAL_insertAL_self _ _ _
  have hexp : isExpired now' (⟨generateKey q (hashDataframe df), p, now, effTtl c t, 0⟩ : CacheEntry α) = false := by
    unfold isExpired
    exact decide_eq_false h
  simp only [cacheGet, hkey, hlook, hexp]
  simp

/-! ## Claim C1 -/

/-- Claim C1: the spec states that `invalidateByQuery(query)` removes exactly
the entries whose fingerprint's query component equals the normalized query
and returns the number removed.  The code cannot do this: every stored key is
an MD5 hexdigest, which never contains the `'|'` separator that
`invalidate_by_query` splits on, so on every cache state whose keys come from
`_generate_key` the operation removes nothing and returns 0. -/
theorem C1_invalidate_by_query_removes_nothing {α : Type} (c : AnalysisCache α)
    (query : String) (h : ∀ p ∈ c.cache, containsChar p.1 '|' = false) :
    cacheInvalidateByQuery c query = (0, c) := by
  simp only [cacheInvalidateByQuery]
  have h1 : c.cache.filter (fun p =>
      containsChar p.1 '|' && decide (firstField p.1 '|' = pyNormalizeQuery query)) = [] := by
    rw [List.filter_eq_nil_iff]
    intro p hp
    simp [h p hp]
  have h2 : c.cache.filter (fun p =>
      decide (¬ (containsChar p.1 '|' &&
        decide (firstField p.1 '|' = pyNormalizeQuery query)) = true)) = c.cache := by
    rw [List.filter_eq_self]
    intro p hp
    simp [h p hp]
  rw [h1, h2]
  rfl

/-- Witness for C1: after a `set` on an empty cache, invalidating the very
query that was stored removes nothing and reports 0 removed. -/
theorem C1_invalidate_witness :
    cacheInvalidateByQuery
      (cacheSet (⟨100, 3600, []⟩ : AnalysisCache String) 0 "x"
        ⟨["a"], 1, "\x7b\x7d"⟩ "payload" none) "x"
    = (0, cacheSet (⟨100, 3600, []⟩ : AnalysisCache String) 0 "x"
        ⟨["a"], 1, "\x7b\x7d"⟩ "payload" none) := by
  apply C1_invalidate_by_query_removes_nothing
  intro p hp
  have hc : (cacheSet (⟨100, 3600, []⟩ : AnalysisCache String) 0 "x"
      ⟨["a"], 1, "\x7b\x7d"⟩ "payload" none).cache
      = [(generateKey "x" (hashDataframe ⟨["a"], 1, "\x7b\x7d"⟩),
          ⟨generateKey "x" (hashDataframe ⟨["a"], 1, "\x7b\x7d"⟩), "payload", 0, 3600, 0⟩)] := by
    rfl
  rw [hc] at hp
  simp only [List.mem_singleton] at hp
  rw [hp]
  exact generateKey_no_pipe _ _

/-! ## Claim C5 -/

/-- Counterexample to claim C5 as stated: an entry stored with
`ttlSeconds = 0` is *not* absent on the next `get` — the payload is
returned, because `ttl = ttl or self.default_ttl` replaces the falsy `0` by
the default TTL of 3600 seconds. -/
theorem C5_zero_ttl_counterexample :
    (cacheGet (cacheSet (⟨100, 3600, []⟩ : AnalysisCache String) 1000 "average age"
        ⟨["age"], 2, "\x7b\x7d"⟩ "cached analysis" (some 0)) 1000 "average age"
        ⟨["age"], 2, "\x7b\x7d"⟩).1 = some "cached analysis" :=
  cacheGet_after_set _ 1000 1000 _ _ _ _ (some 0) rfl (by decide)

/-- Claim C5 (amended): an entry stored with `ttlSeconds = 0` receives the
default TTL (the `or`-defaulting treats 0 as unset), so it is not expired
immediately after insertion and a subsequent `get` for the same
(query, dataset) returns the stored payload whenever the default TTL is
nonnegative. -/
theorem C5_zero_ttl_default {α : Type} (c : AnalysisCache α) (now : Int)
    (q : String) (df : PyDataFrame) (p : α) (h : 0 ≤ c.default_ttl) :
    effTtl c (some 0) = c.default_ttl ∧
    (cacheGet (cacheSet c now q df p (some 0)) now q df).1 = some p := by
  refine ⟨rfl, cacheGet_after_set c now now q q df p (some 0) rfl ?_⟩
  simp only [effTtl, if_pos rfl]
  omega

/-- Witness for the amended C5. -/
theorem C5_zero_ttl_witness :
    effTtl (⟨100, 3600, []⟩ : AnalysisCache String) (some 0) = 3600 ∧
    (cacheGet (cacheSet (⟨100, 3600, []⟩ : AnalysisCache String) 5 "q1"
        ⟨["c"], 1, "\x7b\x7d"⟩ "v1" (some 0)) 5 "q1" ⟨["c"], 1, "\x7b\x7d"⟩).1 = some "v1" :=
  C5_zero_ttl_default (⟨100, 3600, []⟩ : AnalysisCache String) 5 "q1"
    ⟨["c"], 1, "\x7b\x7d"⟩ "v1" (by decide)

/-! ## Claim C8 -/

/-- Claim C8: for every (query, dataset) pair and payload, `set` followed by
an immediate `get` with the same pair returns the stored payload, unless the
entry's TTL has already elapsed at the time of the `get` (which for an
immediate `get` can only happen with a negative effective TTL). -/
theorem C8_set_get_roundtrip {α : Type} (c : AnalysisCache α) (now now' : Int)
    (q : String) (df : PyDataFrame) (p : α) (t : Option Int)
    (h : ¬ (now' - now > effTtl c t)) :
    (cacheGet (cacheSet c now q df p t) now' q df).1 = some p :=
  cacheGet_after_set c now now' q q df p t rfl h

/-- Witness for C8. -/
theorem C8_set_get_witness :
    (cacheGet (cacheSet (⟨100, 3600, []⟩ : AnalysisCache String) 0 "show the totals"
        ⟨["t"], 4, "\x7b\x7d"⟩ "the totals are 7" none) 0 "show the totals"
        ⟨["t"], 4, "\x7b\x7d"⟩).1 = some "the totals are 7" :=
  C8_set_get_roundtrip (⟨100, 3600, []⟩ : AnalysisCache String) 0 0
    "show the totals" ⟨["t"], 4, "\x7b\x7d"⟩ "the totals are 7" none (by decide)

/-! ## Claim C10 -/

/-- Claim C10: cache lookups and stores are invariant under surrounding
whitespace and letter case of the query: whenever two queries normalize
(strip-then-lowercase) to the same string, a `set` under one followed by a
`get` under the other is a hit returning the stored payload (unless the
entry has already expired). -/
theorem C10_query_normalization {α : Type} (c : AnalysisCache α) (now now' : Int)
    (q q' : String) (df : PyDataFrame) (p : α) (t : Option Int)
    (hq : pyNormalizeQuery q' = pyNormalizeQuery q)
    (h : ¬ (now' - now > effTtl c t)) :
    (cacheGet (cacheSet c now q df p t) now' q' df).1 = some p :=
  cacheGet_after_set c now now' q q' df p t hq h

/-- Witness for C10: `"  Average AGE  "` and `"average age"` differ only by
surrounding whitespace and letter case, and the second query hits the entry
stored under the first. -/
theorem C10_query_normalization_witness :
    (cacheGet (cacheSet (⟨100, 3600, []⟩ : AnalysisCache String) 0 "  Average AGE  "
        ⟨["age"], 3, "\x7b\x7d"⟩ "mean age is 41" none) 0 "average age"
        ⟨["age"], 3, "\x7b\x7d"⟩).1 = some "mean age is 41" :=
  C10_query_normalization (⟨100, 3600, []⟩ : AnalysisCache String) 0 0
    "  Average AGE  " "average age" ⟨["age"], 3, "\x7b\x7d"⟩ "mean age is 41" none
    (by decide) (by decide)

/-! ## Claim C7 -/

/-- Counterexample to claim C7 as stated: with `maxSize = 0` a single `set`
on an empty cache leaves one entry, exceeding `maxSize` (`_evict_lru`
removes nothing from an empty dict and insertion is unconditional). -/
theorem C7_capacity_counterexample :
    ¬ ((cacheSet (⟨0, 3600, []⟩ : AnalysisCache String) 0 "q"
        ⟨["a"], 1, "\x7b\x7d"⟩ "p" none).cache.length
          ≤ (⟨0, 3600, []⟩ : AnalysisCache String).max_size) := by
  intro hle
  have h1 : (cacheSet (⟨0, 3600, []⟩ : AnalysisCache String) 0 "q"
      ⟨["a"], 1, "\x7b\x7d"⟩ "p" none).cache.length = 1 := rfl
  rw [h1] at hle
  exact absurd hle (by decide)

/-- Claim C7 (amended): provided `maxSize ≥ 1`, every mutating cache
operation leaves at most `maxSize` entries whenever it starts from a state
with at most `maxSize` entries (for `maxSize = 0`, a single insertion
already violates the bound). -/
theorem C7_capacity_invariant {α : Type} (c : AnalysisCache α) (now : Int)
    (q : String) (df : PyDataFrame) (p : α) (t : Option Int)
    (hmax : 1 ≤ c.max_size) (hlen : c.cache.length ≤ c.max_size) :
    (cacheSet c now q df p t).cache.length ≤ c.max_size ∧
    (cacheGet c now q df).2.cache.length ≤ c.max_size ∧
    (cacheInvalidateByQuery c q).2.cache.length ≤ c.max_size ∧
    (cacheClear c).2.cache.length ≤ c.max_size := by
  refine ⟨?_, ?_, ?_, ?_⟩
  · simp only [cacheSet]
    by_cases hB : c.max_size ≤ c.cache.length
    · rw [if_pos hB]
      have hlen1 : (cleanupExpired now c.cache).length ≤ c.cache.length :=
        List.length_filter_le _ _
      by_cases hA : c.max_size ≤ (cleanupExpired now c.cache).length
      · rw [if_pos hA]
        have hne : cleanupExpired now c.cache ≠ [] := by
          intro h0
          rw [h0] at hA
          simp at hA
          omega
        have h2 := removeOldest_length _ hne
        refine le_trans (length_insertAL_le _ _ _) ?_
        omega
      · rw [if_neg hA]
        refine le_trans (length_insertAL_le _ _ _) ?_
        omega
    · rw [if_neg hB, if_neg hB]
      refine le_trans (length_insertAL_le _ _ _) ?_
      omega
  · simp only [cacheGet]
    cases hl : lookupAL (generateKey q (hashDataframe df)) c.cache with
    | none => simpa using hlen
    | some e =>
      simp only [hl]
      split
      · refine le_trans (length_eraseAL_le _ _) hlen
      · simp only
        rw [length_insertAL_of_lookup _ _ e _ hl]
        exact hlen
  · simp only [cacheInvalidateByQuery]
    exact le_trans (List.length_filter_le _ _) hlen
  · simp [cacheClear]

/-- Witness for the amended C7. -/
theorem C7_capacity_witness :
    (cacheSet (⟨100, 3600, []⟩ : AnalysisCache String) 0 "wq"
      ⟨["k"], 1, "\x7b\x7d"⟩ "wp" none).cache.length ≤ 100 ∧
    (cacheGet (⟨100, 3600, []⟩ : AnalysisCache String) 0 "wq"
      ⟨["k"], 1, "\x7b\x7d"⟩).2.cache.length ≤ 100 ∧
    (cacheInvalidateByQuery (⟨100, 3600, []⟩ : AnalysisCache String) "wq").2.cache.length ≤ 100 ∧
    (cacheClear (⟨100, 3600, []⟩ : AnalysisCache String)).2.cache.length ≤ 100 :=
  C7_capacity_invariant (⟨100, 3600, []⟩ : AnalysisCache String) 0 "wq"
    ⟨["k"], 1, "\x7b\x7d"⟩ "wp" none (by decide) (by decide)

/-! ## Claim C9 -/

/-- Counterexample to claim C9 as stated: the `y='Z'` variant, with `Z`
absent from the available columns, produces *no* issue naming `Z` — the
column extractor only recognizes `df['col']` / `df.col` reference patterns,
so a keyword-argument column name is invisible to it and the result is
reported fully valid with an empty issue list. -/
theorem C9_missing_issue_counterexample :
    validateVisualizationCode "fig = px.bar(df, x=\x27A\x27, y=\x27Z\x27)" ["A", "B"]
      = ⟨true, 1, [], []⟩ := by
  rfl

/-- Claim C9 (amended): `validateVisualizationCode("fig = px.bar(df, x='A',
y='B')", ["A","B"])` is valid with no column-reference issues; the same code
with `y='Z'` is likewise valid with no issues at all (keyword-argument
column names are not extracted); an issue naming `Z` is produced only when
the code references the column through the dataframe, as in `df['Z']`. -/
theorem C9_visualization_validation :
    validateVisualizationCode "fig = px.bar(df, x=\x27A\x27, y=\x27B\x27)" ["A", "B"]
      = ⟨true, 1, [], []⟩ ∧
    validateVisualizationCode "fig = px.bar(df, x=\x27A\x27, y=\x27Z\x27)" ["A", "B"]
      = ⟨true, 1, [], []⟩ ∧
    validateVisualizationCode "fig = px.bar(df, x=df[\x27A\x27], y=df[\x27Z\x27])" ["A", "B"]
      = ⟨true, mkRat 4 5, ["Code references non-existent columns: [\x27Z\x27]"],
         ["Use only available columns: [\x27A\x27, \x27B\x27]"]⟩ := by
  refine ⟨rfl, rfl, rfl⟩

/-! ## Claim C6 -/

/-- Attempt-count bound for the retry loop of `CustomGroqLLM.call`: from
retry index `idx ≤ 4` at most `5 - idx` further attempts happen. -/
theorem groqCallAux_attempts_le (outcomes : List GroqAttemptOutcome) :
    ∀ (idx att wait : Nat), idx ≤ 4 →
      (groqCallAux outcomes idx att wait).attempts ≤ att + (5 - idx) := by
  induction outcomes with
  | nil =>
    intro idx att wait hidx
    simp only [groqCallAux]
    omega
  | cons o rest ih =>
    intro idx att wait hidx
    cases o with
    | http status body content =>
      simp only [groqCallAux, groqMaxRetries, groqRetryDelay]
      split
      · dsimp only
        omega
      · split
        · split
          · rename_i hlt
            have := ih (idx + 1) (att + 1) (wait + 30 * (idx + 1)) (by omega)
            omega
          · dsimp only
            omega
        · split
          · split
            · rename_i hcond
              have hlt := hcond.1
              have := ih (idx + 1) (att + 1) (wait + 30 * (idx + 1)) (by omega)
              omega
            · dsimp only
              omega
          · split
            · rename_i hlt
              have := ih (idx + 1) (att + 1) (wait + 30 * (idx + 1)) (by omega)
              omega
            · dsimp only
              omega
    | timeout =>
      simp only [groqCallAux, groqMaxRetries, groqRetryDelay]
      split
      · rename_i hlt
        have := ih (idx + 1) (att + 1) (wait + 30 * (idx + 1)) (by omega)
        omega
      · dsimp only
        omega
    | transportError msg =>
      simp only [groqCallAux, groqMaxRetries, groqRetryDelay]
      split
      · rename_i hlt
        have := ih (idx + 1) (att + 1) (wait + 30 * (idx + 1)) (by omega)
        omega
      · dsimp only
        omega

/-- Counterexample to claim C6 as stated: under the linear backoff
`wait = 30s * attemptIndex`, three consecutive 429 responses followed by a
200 wait 30 + 60 + 90 = 180 seconds in total, not 30 + 60 = 90 seconds. -/
theorem C6_backoff_counterexample :
    (groqCall [.http 429 "r" none, .http 429 "r" none, .http 429 "r" none,
        .http 200 "" (some "ok")]).totalWait = 180 ∧ (180 : Nat) ≠ 30 + 60 :=
  ⟨rfl, by decide⟩

/-- Claim C6 (amended): three consecutive 429s followed by a 200 succeed on
the fourth attempt (within the 5-attempt ceiling) after a total wait of
30 + 60 + 90 = 180 seconds.  A 4xx other than 429 raises a `ValueError`
that the blanket exception handler re-catches: when the raised message
carries no rate-limit indicator (neither `"rate_limit_exceeded"` nor
`"429"`), the call fails immediately on the first attempt with no wait; but
a 4xx whose body carries `"429"` is retried with the same backoff.  No call
ever makes more than 5 attempts. -/
theorem C6_retry_behavior :
    (∀ body c, groqCall [.http 429 body none, .http 429 body none,
        .http 429 body none, .http 200 "" (some c)] = ⟨.ok c, 4, 180⟩) ∧
    (∀ body rest, strContains body "rate_limit_exceeded" = false →
      strContains ("Groq API returned error 400: " ++ body) "rate_limit_exceeded" = false →
      strContains ("Groq API returned error 400: " ++ body) "429" = false →
      groqCall (.http 400 body none :: rest)
        = ⟨.error ("Groq API returned error 400: " ++ body), 1, 0⟩) ∧
    (∀ c, groqCall [.http 400 "quota 429 reached" none, .http 200 "" (some c)]
        = ⟨.ok c, 2, 30⟩) ∧
    (∀ outcomes, (groqCall outcomes).attempts ≤ 5) := by
  refine ⟨fun body c => rfl, fun body rest h1 h2 h3 => ?_, fun c => rfl,
    fun outcomes => ?_⟩
  · have h2' : strContains
        ("Groq API returned error " ++ toString (400 : Nat) ++ ": " ++ body)
        "rate_limit_exceeded" = false := h2
    have h3' : strContains
        ("Groq API returned error " ++ toString (400 : Nat) ++ ": " ++ body)
        "429" = false := h3
    simp only [groqCall, groqCallAux, h1, h2', h3']
    rfl
  · simpa using groqCallAux_attempts_le outcomes 0 0 0 (by decide)

/-- Witness for the amended C6. -/
theorem C6_retry_witness :
    groqCall [.http 429 "rate limited" none, .http 429 "rate limited" none,
        .http 429 "rate limited" none, .http 200 "" (some "done")]
      = ⟨.ok "done", 4, 180⟩ ∧
    groqCall [.http 400 "Bad Request" none]
      = ⟨.error "Groq API returned error 400: Bad Request", 1, 0⟩ ∧
    groqCall [.http 400 "quota 429 reached" none, .http 200 "" (some "recovered")]
      = ⟨.ok "recovered", 2, 30⟩ ∧
    (groqCall []).attempts ≤ 5 :=
  ⟨C6_retry_behavior.1 "rate limited" "done",
   C6_retry_behavior.2.1 "Bad Request" [] (by decide) (by decide) (by decide),
   C6_retry_behavior.2.2.1 "recovered",
   C6_retry_behavior.2.2.2 []⟩

/-! ## Helper lemmas for the orchestration claims -/

theorem str_append_data (a b : String) : (a ++ b).data = a.data ++ b.data := by
  cases a
  cases b
  rfl

theorem str_append_ne_empty_of_left (a b : String) (h : a.data ≠ []) :
    ¬ a ++ b = "" := by
  intro hab
  apply h
  have h2 : (a ++ b).data = a.data ++ b.data := str_append_data a b
  rw [hab] at h2
  exact (List.append_eq_nil.mp h2.symm).1

theorem fallbackStatic_ne_empty (e : String) : ¬ fallbackStatic e = "" := by
  unfold fallbackStatic
  apply str_append_ne_empty_of_left
  rw [str_append_data]
  intro h
  exact absurd (List.append_eq_nil.mp h).1 (by decide)

theorem fallbackBanner_ne_empty (raw : String) : ¬ fallbackBanner raw = "" := by
  unfold fallbackBanner
  apply str_append_ne_empty_of_left
  rw [str_append_data]
  intro h
  exact absurd (List.append_eq_nil.mp h).1 (by decide)

/-- `_create_fallback_result` always produces nonempty text. -/
theorem fallbackContent_ne_empty (fb : Option String) (e : String) :
    ¬ fallbackContent fb e = "" := by
  cases fb with
  | none => exact fallbackStatic_ne_empty e
  | some raw =>
    by_cases h : raw = ""
    · simpa [fallbackContent, h] using fallbackStatic_ne_empty e
    · simpa [fallbackContent, h] using fallbackBanner_ne_empty raw

/-- `CustomCrew.run` when every primary attempt raises: three attempts, two
backoff sleeps, one fallback invocation, and the fallback text as output. -/
theorem crewRun_three_raised (e1 e2 e3 : String) (fb : Option String) :
    crewRun ⟨[.raised e1, .raised e2, .raised e3], fb⟩
      = ⟨fallbackContent fb e3, 3, 1, [1, 2]⟩ := rfl

/-- `cacheGet` on an empty cache misses and leaves the state unchanged. -/
theorem cacheGet_empty (ms : Nat) (dt : Int) (now : Int) (q : String)
    (df : PyDataFrame) :
    cacheGet (⟨ms, dt, []⟩ : AnalysisCache String) now q df
      = (none, ⟨ms, dt, []⟩) := rfl

/-- Every response `analyze_data` returns (cache hit, primary success,
annotated acceptance, or fallback) carries the literal status `"success"`;
errors are raised exceptions.  There is no `Degraded` status anywhere. -/
theorem analyzeData_status_success (c : AnalysisCache String) (now : Int)
    (q : String) (df : PyDataFrame) (env : CrewEnv) :
    respStatusSuccessOrError (analyzeData c now q df env).response = true := by
  simp only [analyzeData]
  split
  · rfl
  · split
    · rfl
    · split
      · rfl
      · split
        · rfl
        · rfl

/-- The validator's verdict is exactly the comparison of its own score
against the acceptance threshold 2/5. -/
theorem validateAnalysisResult_isValid_eq (content query : String) :
    (validateAnalysisResult content query).is_valid
      = decide (mkRat 2 5 ≤ (validateAnalysisResult content query).score) := by
  unfold validateAnalysisResult
  split
  · rfl
  · rfl

/-! ## Claim C3 -/

/-- Counterexample to claim C3 as stated: when every primary attempt raises
a transport failure, the handler still returns HTTP status `"success"` for
the fallback text — there is no `Degraded` status in the code. -/
theorem C3_status_counterexample :
    ((analyzeData ⟨100, 3600, []⟩ 0 "zzz qqq" ⟨["c"], 2, "\x7b\x7d"⟩
        ⟨[.raised "transport failure", .raised "transport failure",
          .raised "transport failure"], none⟩).response.toOption.map
        AnalyzeResponse.status) = some "success"
    ∧ "success" ≠ "Degraded" := ⟨rfl, by decide⟩

/-- Claim C3 (amended): when the pipeline-runner raises a transient failure
on every primary attempt, exactly `maxRetries + 1` (= 3) primary attempts
are made and the fallback pipeline is invoked exactly once; but the result,
when one is returned to the caller, carries the status `"success"` — the
code has no `Degraded` status distinguishing fallback output. -/
theorem C3_exhaustion_behavior (e1 e2 e3 : String) (fb : Option String)
    (q : String) (df : PyDataFrame) (now : Int) :
    (crewRun ⟨[.raised e1, .raised e2, .raised e3], fb⟩).attemptsUsed = crewMaxRetries + 1 ∧
    (crewRun ⟨[.raised e1, .raised e2, .raised e3], fb⟩).fallbackCalls = 1 ∧
    respStatusSuccessOrError
      (analyzeData ⟨100, 3600, []⟩ now q df
        ⟨[.raised e1, .raised e2, .raised e3], fb⟩).response = true :=
  ⟨rfl, rfl, analyzeData_status_success _ now q df _⟩

/-! ## Claim C2 -/

/-- Counterexample to claim C2 as stated: a run in which every primary
attempt raises and the fallback pipeline produces the returned text does
*not* leave the cache unchanged — the boundary layer cannot distinguish
fallback output and writes it to the cache once it clears the validation
gate (here the static fallback message scores 609/1375 ≈ 0.44). -/
theorem C2_fallback_cached_counterexample :
    (analyzeData ⟨100, 3600, []⟩ 0 "zzz www" ⟨["a", "b"], 3, "\x7b\x7d"⟩
      ⟨[.raised "boom", .raised "boom", .raised "boom"], none⟩).fallbackCalls = 1 ∧
    (analyzeData ⟨100, 3600, []⟩ 0 "zzz www" ⟨["a", "b"], 3, "\x7b\x7d"⟩
      ⟨[.raised "boom", .raised "boom", .raised "boom"], none⟩).cache.cache.length = 1 :=
  ⟨rfl, rfl⟩

/-- Claim C2 (amended): after an exhausted run the fallback text is treated
like any primary result: whenever the handler returns a response, the
fallback-derived text has been written to the (initially empty) cache — the
cache is left unchanged only when the handler raises instead. -/
theorem C2_fallback_caching (e1 e2 e3 : String) (fb : Option String)
    (q : String) (df : PyDataFrame) (now : Int) :
    (analyzeData ⟨100, 3600, []⟩ now q df
      ⟨[.raised e1, .raised e2, .raised e3], fb⟩).fallbackCalls = 1 ∧
    okWroteOneEntry (analyzeData ⟨100, 3600, []⟩ now q df
      ⟨[.raised e1, .raised e2, .raised e3], fb⟩) = true := by
  have hne := fallbackContent_ne_empty fb e3
  simp only [analyzeData, cacheGet_empty, crewRun_three_raised]
  rw [if_neg hne]
  constructor
  · split
    · next h => exact absurd h (by simp)
    · split
      · rfl
      · split
        · rfl
        · rfl
  · split
    · next h => exact absurd h (by simp)
    · split
      · rfl
      · split
        · rfl
        · rfl

/-! ## Claim C4 -/

/-- Counterexample to claim C4 as stated: a first-attempt result scoring
below 0.3 (here `"lorem ipsum dolor"`, score 7/50 = 0.14) is *not* retried —
the handler surfaces an HTTP 500 error to the caller although further
attempts remained (only 1 of 3 was used), and nothing is cached. -/
theorem C4_low_score_error_counterexample :
    (analyzeData ⟨100, 3600, []⟩ 0 "zzz www" ⟨["a"], 1, "\x7b\x7d"⟩
      ⟨[.returned "lorem ipsum dolor"], none⟩).response
      = .error "La qualité du résultat d\x27analyse est insuffisante" ∧
    (analyzeData ⟨100, 3600, []⟩ 0 "zzz www" ⟨["a"], 1, "\x7b\x7d"⟩
      ⟨[.returned "lorem ipsum dolor"], none⟩).attemptsUsed = 1 ∧
    (1 : Nat) < crewMaxRetries + 1 ∧
    (analyzeData ⟨100, 3600, []⟩ 0 "zzz www" ⟨["a"], 1, "\x7b\x7d"⟩
      ⟨[.returned "lorem ipsum dolor"], none⟩).cache.cache = [] :=
  ⟨rfl, rfl, by decide, rfl⟩

/-- Claim C4 (amended): a plausible pipeline result whose validation is
invalid but scores at least 0.3 is annotated with the top issues and
suggestions, accepted with status `"success"`, and written to the cache;
a result scoring below 0.3 makes the request fail immediately with an HTTP
500 error and nothing cached — there is no retry at the validation-score
level (the orchestrator's retry loop only reacts to pipeline exceptions and
to content shorter than 10 characters). -/
theorem C4_threshold_behavior (env : CrewEnv) (q : String) (df : PyDataFrame)
    (now : Int) (hraw : ¬ (crewRun env).raw = "") :
    ((validateAnalysisResult (crewRun env).raw q).is_valid = false →
      mkRat 3 10 ≤ (validateAnalysisResult (crewRun env).raw q).score →
      (analyzeData ⟨100, 3600, []⟩ now q df env).response
        = .ok ⟨q, (crewRun env).raw ++
            renderQualityFeedback (validateAnalysisResult (crewRun env).raw q),
            "success"⟩ ∧
      (analyzeData ⟨100, 3600, []⟩ now q df env).cache.cache.map (fun p => p.2.data)
        = [(crewRun env).raw ++
            renderQualityFeedback (validateAnalysisResult (crewRun env).raw q)]) ∧
    ((validateAnalysisResult (crewRun env).raw q).score < mkRat 3 10 →
      (analyzeData ⟨100, 3600, []⟩ now q df env).response
        = .error "La qualité du résultat d\x27analyse est insuffisante" ∧
      (analyzeData ⟨100, 3600, []⟩ now q df env).cache.cache = []) := by
  constructor
  · intro hv hs
    simp only [analyzeData, cacheGet_empty]
    rw [if_neg (by simp : ¬ (false = true)), if_neg hraw,
      if_neg (by simp [hv] : ¬ ((validateAnalysisResult (crewRun env).raw q).is_valid = true)),
      if_neg (not_lt.mpr hs)]
    exact ⟨rfl, rfl⟩
  · intro hs
    have hvfalse : (validateAnalysisResult (crewRun env).raw q).is_valid = false := by
      rw [validateAnalysisResult_isValid_eq]
      simp only [decide_eq_false_iff_not]
      intro hle
      exact absurd (lt_of_le_of_lt hle hs) (by decide)
    simp only [analyzeData, cacheGet_empty]
    rw [if_neg (by simp : ¬ (false = true)), if_neg hraw,
      if_neg (by simp [hvfalse] : ¬ ((validateAnalysisResult (crewRun env).raw q).is_valid = true)),
      if_pos hs]
    exact ⟨rfl, rfl⟩

/-- Witness for the amended C4: a 107-character result with a number and one
insight keyword scores exactly 3/10 (invalid, but at the acceptance bound),
is annotated, returned with status `"success"`, and cached. -/
theorem C4_threshold_witness :
    (analyzeData ⟨100, 3600, []⟩ 0 "zzz www" ⟨["a"], 1, "\x7b\x7d"⟩
      ⟨[.returned "A trend value of 42 appears twice in this line of text, and nothing more is said beyond these simple words."], none⟩).response
      = .ok ⟨"zzz www",
          "A trend value of 42 appears twice in this line of text, and nothing more is said beyond these simple words."
            ++ renderQualityFeedback (validateAnalysisResult
              "A trend value of 42 appears twice in this line of text, and nothing more is said beyond these simple words."
              "zzz www"),
          "success"⟩ ∧
    (analyzeData ⟨100, 3600, []⟩ 0 "zzz www" ⟨["a"], 1, "\x7b\x7d"⟩
      ⟨[.returned "A trend value of 42 appears twice in this line of text, and nothing more is said beyond these simple words."], none⟩).cache.cache.map (fun p => p.2.data)
      = ["A trend value of 42 appears twice in this line of text, and nothing more is said beyond these simple words."
          ++ renderQualityFeedback (validateAnalysisResult
            "A trend value of 42 appears twice in this line of text, and nothing more is said beyond these simple words."
            "zzz www")] :=
  (C4_threshold_behavior
    ⟨[.returned "A trend value of 42 appears twice in this line of text, and nothing more is said beyond these simple words."], none⟩
    "zzz www" ⟨["a"], 1, "\x7b\x7d"⟩ 0 (by decide)).1 (by rfl) (by decide)

end DataScientist
